import Mathlib

/-!
Shallow embedding of `tcpdial` from `src/tcp.c` of the pyk/tcp repository.

The C function interacts with the operating system through four calls:
`getprotobyname("tcp")`, `socket`, `getaddrinfo` and `connect`.  We model the
operating system as an oracle (`Env`) that fixes the outcome of each of these
calls, and `tcpdial` as a pure function of that oracle and of the host/port
arguments.  The outcome records the return value, the final `errno`, the value
written through the `conn` out-parameter (`none` when the C code returns
without writing `*conn`), and a trace of the system calls that were issued,
so that resource-usage properties (how many sockets were created, whether a
descriptor was ever closed, which descriptor each `connect` used) can be
stated and proved.

Numeric constants are the Linux/glibc values, matching the platform the C file
targets (`_POSIX_C_SOURCE`, `/etc/protocols` in its comments).
-/

namespace Tcp

/-- Linux errno value `ENOPROTOOPT` (protocol not available). -/
def ENOPROTOOPT : Int := 92

/-- Linux errno value `ENOMEM` (out of memory). -/
def ENOMEM : Int := 12

/-- Linux errno value `ENETDOWN` (network is down). -/
def ENETDOWN : Int := 100

/-- Linux errno value `ENETUNREACH` (network is unreachable). -/
def ENETUNREACH : Int := 101

/-- Linux errno value `ENOTCONN` (the socket is not connected). -/
def ENOTCONN : Int := 107

/-- Linux errno value `EINVAL` (invalid argument). -/
def EINVAL : Int := 22

/-- glibc resolver error `EAI_NONAME` (name or service not known). -/
def EAI_NONAME : Int := -2

/-- glibc resolver error `EAI_AGAIN` (temporary failure in name resolution). -/
def EAI_AGAIN : Int := -3

/-- glibc resolver error `EAI_FAIL` (non-recoverable failure in name resolution). -/
def EAI_FAIL : Int := -4

/-- glibc resolver error `EAI_SERVICE` (service not supported for socket type). -/
def EAI_SERVICE : Int := -8

/-- glibc resolver error `EAI_MEMORY` (memory allocation failure). -/
def EAI_MEMORY : Int := -10

/-- Linux address family `AF_UNSPEC`. -/
def AF_UNSPEC : Int := 0

/-- Linux address family `AF_INET` (IPv4). -/
def AF_INET : Int := 2

/-- Linux address family `AF_INET6` (IPv6). -/
def AF_INET6 : Int := 10

/-- Linux socket type `SOCK_STREAM`. -/
def SOCK_STREAM : Int := 1

/-- One resolved candidate socket address (one `struct addrinfo` node):
its address family (`ai_addr->sa_family`) and an abstract payload standing
for the rest of the sockaddr bytes. -/
structure Addr where
  family : Int
  payload : Nat
deriving Repr, DecidableEq

/-- The `struct addrinfo` hint fields that `tcpdial` fills in before calling
`getaddrinfo` (the rest are zeroed by `memset`). -/
structure Hints where
  ai_family : Int
  ai_socktype : Int
  ai_protocol : Int
deriving Repr, DecidableEq

/-- The hints `tcpdial` builds at `src/tcp.c:104-107`. -/
def tcpHints (proto : Int) : Hints :=
  { ai_family := AF_UNSPEC, ai_socktype := SOCK_STREAM, ai_protocol := proto }

/-- One observable operating-system interaction of `tcpdial`. -/
inductive Event : Type
  /-- A `socket(domain, socktype, protocol)` call that returned `result`
  (`-1` on failure, the new descriptor otherwise). -/
  | socketCall (domain socktype protocol result : Int) : Event
  /-- A `getaddrinfo(host, port, hints, out)` call. -/
  | gaiCall (host port : String) (hints : Hints) : Event
  /-- A `connect(fd, addr, addrlen)` call that returned `result`
  (`0` on success, nonzero on failure). -/
  | connectAttempt (fd : Int) (addr : Addr) (result : Int) : Event
  /-- A `close(fd)` call.  `tcpdial` never issues one; the constructor exists
  so that "the socket is closed" is expressible about a trace. -/
  | closeFd (fd : Int) : Event
deriving Repr, DecidableEq

/-- The operating-system oracle: the outcome of each system call `tcpdial`
may issue during one invocation.

* `getprotobyname_tcp` — result of `getprotobyname("tcp")`: `none` for a
  `NULL` return (entry missing from the protocol database), `some p` for an
  entry whose `p_proto` field is `p`.
* `socket_syscall d t p` — result of `socket(d, t, p)`: first component is
  the return value (`-1` on failure, a descriptor otherwise), second is the
  `errno` value the call leaves behind when it fails.
* `getaddrinfo_syscall host port hints` — first component is the return code
  (`0` on success, a nonzero `EAI_*` code on failure), second is the resolved
  candidate list (in resolver order) that is valid when the code is `0`.
* `connect_syscall fd a` — result of `connect(fd, ...)` on candidate `a`:
  first component is the return value (`0` on success, nonzero on failure),
  second is the `errno` value the call leaves behind when it fails. -/
structure Env where
  getprotobyname_tcp : Option Int
  socket_syscall : Int → Int → Int → Int × Int
  getaddrinfo_syscall : String → String → Hints → Int × List Addr
  connect_syscall : Int → Addr → Int × Int

/-- Everything observable about one `tcpdial` call: the return value, the
final `errno`, the value written through the `conn` out-parameter (`none`
when `*conn` was never assigned), and the trace of system calls issued. -/
structure DialOutcome where
  ret : Int
  errno : Int
  conn : Option Int
  trace : List Event
deriving Repr, DecidableEq

/-- The `switch(errno)` at `src/tcp.c:110-126` that normalizes a nonzero
`getaddrinfo` failure code: `EAI_AGAIN ↦ ENETUNREACH`, `EAI_FAIL ↦ ENETDOWN`,
`EAI_MEMORY ↦ ENOMEM`, `EAI_NONAME`/`EAI_SERVICE ↦ EINVAL`, anything else
passes through the `default` branch unchanged. -/
def mapGaiError (e : Int) : Int :=
  if e = EAI_AGAIN then ENETUNREACH
  else if e = EAI_FAIL then ENETDOWN
  else if e = EAI_MEMORY then ENOMEM
  else if e = EAI_NONAME ∨ e = EAI_SERVICE then EINVAL
  else e

/-- The `for` loop at `src/tcp.c:131-140`: walk the candidate list, calling
`connect(*conn, ...)` on each; `continue` past a nonzero return, `break` on
`0`.  Returns the value of the loop variable `addri` after the loop (`none`
when the list was exhausted, `some a` when the loop broke at candidate `a`),
the `errno` value after the loop (a failed `connect` sets `errno`; the
incoming value `e` survives when the first attempt succeeds), and the trace
of `connect` calls made. -/
def connectLoop (env : Env) (fd : Int) : List Addr → Int → Option Addr × Int × List Event
  | [], e => (none, e, [])
  | a :: rest, e =>
    let r := env.connect_syscall fd a
    if r.1 = 0 then
      (some a, e, [Event.connectAttempt fd a r.1])
    else
      let next := connectLoop env fd rest r.2
      (next.1, next.2.1, Event.connectAttempt fd a r.1 :: next.2.2)

/-- Shallow embedding of `tcpdial` (`src/tcp.c:86-147`).

Step by step against the C source:
* lines 90-94: `getprotobyname("tcp")`; on `NULL`, set `errno = ENOPROTOOPT`
  and return it (nothing else has happened: no socket, no resolution, `*conn`
  untouched).
* lines 97-100: `*conn = socket(AF_INET, SOCK_STREAM, p_proto)`; on `-1`,
  return the `errno` the call set (`*conn` now holds `-1`).
* lines 103-108: fill the hints (`AF_UNSPEC`, `SOCK_STREAM`, `p_proto`) and
  run `errno = getaddrinfo(host, port, &hints, &list)`.
* lines 109-128: if that code is nonzero, normalize it through the `switch`
  and return it.
* lines 131-144: run the connect loop on the list; if it exhausted the list
  (`addri == NULL`), set `errno = ENOTCONN` and return it.
* line 146: otherwise return `0`. -/
def tcpdial (env : Env) (host port : String) : DialOutcome :=
  match env.getprotobyname_tcp with
  | none =>
    { ret := ENOPROTOOPT, errno := ENOPROTOOPT, conn := none, trace := [] }
  | some p =>
    let s := env.socket_syscall AF_INET SOCK_STREAM p
    if s.1 = -1 then
      { ret := s.2, errno := s.2, conn := some s.1,
        trace := [Event.socketCall AF_INET SOCK_STREAM p s.1] }
    else
      let g := env.getaddrinfo_syscall host port (tcpHints p)
      let tr0 : List Event :=
        [Event.socketCall AF_INET SOCK_STREAM p s.1,
         Event.gaiCall host port (tcpHints p)]
      if g.1 ≠ 0 then
        let e := mapGaiError g.1
        { ret := e, errno := e, conn := some s.1, trace := tr0 }
      else
        let loop := connectLoop env s.1 g.2 g.1
        match loop.1 with
        | none =>
          { ret := ENOTCONN, errno := ENOTCONN, conn := some s.1,
            trace := tr0 ++ loop.2.2 }
        | some _ =>
          { ret := 0, errno := loop.2.1, conn := some s.1,
            trace := tr0 ++ loop.2.2 }

/-- Whether candidate `a` refuses the connection on descriptor `fd` under
oracle `env` (the `connect` return value is nonzero). -/
def refuses (env : Env) (fd : Int) (a : Addr) : Bool :=
  decide ((env.connect_syscall fd a).1 ≠ 0)

/-- Number of `socket` calls recorded in a trace. -/
def socketCalls : List Event → Nat
  | [] => 0
  | Event.socketCall _ _ _ _ :: tr => socketCalls tr + 1
  | _ :: tr => socketCalls tr

/-- Number of `close` calls recorded in a trace. -/
def closeCalls : List Event → Nat
  | [] => 0
  | Event.closeFd _ :: tr => closeCalls tr + 1
  | _ :: tr => closeCalls tr

/-- A well-formed oracle: a failing `socket` call leaves a nonzero `errno`,
as POSIX requires. -/
def Env.Wf (env : Env) : Prop :=
  ∀ d t p, (env.socket_syscall d t p).1 = -1 → (env.socket_syscall d t p).2 ≠ 0

/-- Concrete oracle: everything succeeds; resolution yields an IPv4 candidate
that refuses and an IPv6 candidate that accepts. -/
def envA : Env :=
  { getprotobyname_tcp := some 6
    socket_syscall := fun _ _ _ => (3, 0)
    getaddrinfo_syscall := fun _ _ _ => (0, [⟨AF_INET, 0⟩, ⟨AF_INET6, 1⟩])
    connect_syscall := fun _ a => if a.payload = 1 then (0, 0) else (-1, 111) }

/-- Concrete oracle: the protocol database has no `tcp` entry. -/
def envNoProto : Env :=
  { getprotobyname_tcp := none
    socket_syscall := fun _ _ _ => (3, 0)
    getaddrinfo_syscall := fun _ _ _ => (0, [⟨AF_INET, 0⟩])
    connect_syscall := fun _ _ => (0, 0) }

/-- Concrete oracle: `socket` fails with `EACCES` (13). -/
def envSocketFail : Env :=
  { getprotobyname_tcp := some 6
    socket_syscall := fun _ _ _ => (-1, 13)
    getaddrinfo_syscall := fun _ _ _ => (0, [⟨AF_INET, 0⟩])
    connect_syscall := fun _ _ => (0, 0) }

/-- Concrete oracle: resolution fails with `EAI_AGAIN`. -/
def envGaiFail : Env :=
  { getprotobyname_tcp := some 6
    socket_syscall := fun _ _ _ => (3, 0)
    getaddrinfo_syscall := fun _ _ _ => (EAI_AGAIN, [])
    connect_syscall := fun _ _ => (0, 0) }

/-- Concrete oracle: resolution yields two candidates and both refuse. -/
def envExhaust : Env :=
  { getprotobyname_tcp := some 6
    socket_syscall := fun _ _ _ => (3, 0)
    getaddrinfo_syscall := fun _ _ _ => (0, [⟨AF_INET, 0⟩, ⟨AF_INET6, 1⟩])
    connect_syscall := fun _ _ => (-1, 111) }

example : (tcpdial envA "localhost" "9090").ret = 0 := by decide

example : (tcpdial envA "localhost" "9090").trace =
    [Event.socketCall AF_INET SOCK_STREAM 6 3,
     Event.gaiCall "localhost" "9090" (tcpHints 6),
     Event.connectAttempt 3 ⟨AF_INET, 0⟩ (-1),
     Event.connectAttempt 3 ⟨AF_INET6, 1⟩ 0] := by decide

example : (tcpdial envNoProto "localhost" "9090").ret = ENOPROTOOPT := by decide

example : (tcpdial envNoProto "localhost" "9090").conn = none := by decide

example : (tcpdial envSocketFail "localhost" "9090").ret = 13 := by decide

example : (tcpdial envSocketFail "localhost" "9090").conn = some (-1) := by decide

example : (tcpdial envGaiFail "localhost" "9090").ret = ENETUNREACH := by decide

example : (tcpdial envExhaust "localhost" "9090").ret = ENOTCONN := by decide

example : (tcpdial envExhaust "localhost" "9090").errno = ENOTCONN := by decide

theorem refuses_true_iff (env : Env) (fd : Int) (a : Addr) :
    refuses env fd a = true ↔ (env.connect_syscall fd a).1 ≠ 0 := by
  simp [refuses]

theorem refuses_false_iff (env : Env) (fd : Int) (a : Addr) :
    refuses env fd a = false ↔ (env.connect_syscall fd a).1 = 0 := by
  simp [refuses]

/-- When some candidate in the list accepts, the connect loop stops at the
first accepting candidate `c` (the head of what remains after dropping the
refusing ones), having attempted exactly the refusing candidates before it,
in order, and `c` itself. -/
theorem connectLoop_found (env : Env) (fd : Int) (l : List Addr) :
    ∀ e : Int, (∃ a ∈ l, (env.connect_syscall fd a).1 = 0) →
    ∃ c, (l.dropWhile (refuses env fd)).head? = some c ∧
      (env.connect_syscall fd c).1 = 0 ∧
      (connectLoop env fd l e).1 = some c ∧
      (connectLoop env fd l e).2.2 =
        (l.takeWhile (refuses env fd)).map
          (fun a => Event.connectAttempt fd a ((env.connect_syscall fd a).1))
        ++ [Event.connectAttempt fd c 0] := by
  induction l with
  | nil => intro e h; simp at h
  | cons a rest ih =>
    intro e h
    by_cases hc : (env.connect_syscall fd a).1 = 0
    · have hra : refuses env fd a = false := (refuses_false_iff env fd a).2 hc
      refine ⟨a, ?_, hc, ?_, ?_⟩
      · simp [List.dropWhile_cons, hra]
      · simp [connectLoop, hc]
      · simp [connectLoop, hc, List.takeWhile_cons, hra]
    · have hra : refuses env fd a = true := (refuses_true_iff env fd a).2 hc
      have hrest : ∃ b ∈ rest, (env.connect_syscall fd b).1 = 0 := by
        rcases h with ⟨b, hb, hb0⟩
        rcases List.mem_cons.1 hb with rfl | hb
        · exact absurd hb0 hc
        · exact ⟨b, hb, hb0⟩
      obtain ⟨c, hdrop, hc0, hres, htr⟩ :=
        ih (env.connect_syscall fd a).2 hrest
      refine ⟨c, ?_, hc0, ?_, ?_⟩
      · simpa [List.dropWhile_cons, hra] using hdrop
      · simp only [connectLoop, if_neg hc]
        exact hres
      · simp only [connectLoop, if_neg hc, List.takeWhile_cons, hra,
          if_true, List.map_cons, List.cons_append]
        exact congrArg _ htr

/-- When every candidate in the list refuses, the connect loop exhausts the
list (its loop variable ends at `NULL`) after attempting every candidate in
order. -/
theorem connectLoop_exhaust (env : Env) (fd : Int) (l : List Addr) :
    ∀ e : Int, (∀ a ∈ l, (env.connect_syscall fd a).1 ≠ 0) →
    (connectLoop env fd l e).1 = none ∧
      (connectLoop env fd l e).2.2 =
        l.map (fun a => Event.connectAttempt fd a ((env.connect_syscall fd a).1)) := by
  induction l with
  | nil => intro e _; simp [connectLoop]
  | cons a rest ih =>
    intro e h
    have hc : (env.connect_syscall fd a).1 ≠ 0 := h a (List.mem_cons_self a rest)
    have hrest := ih (env.connect_syscall fd a).2
      (fun b hb => h b (List.mem_cons_of_mem a hb))
    simp only [connectLoop, if_neg hc, List.map_cons]
    exact ⟨hrest.1, congrArg _ hrest.2⟩

/-- Every event the connect loop emits is a `connect` attempt on the single
descriptor `fd` it was given. -/
theorem connectLoop_events (env : Env) (fd : Int) (l : List Addr) :
    ∀ (e : Int) (ev : Event), ev ∈ (connectLoop env fd l e).2.2 →
    ∃ a r, ev = Event.connectAttempt fd a r := by
  induction l with
  | nil => intro e ev hev; simp [connectLoop] at hev
  | cons a rest ih =>
    intro e ev hev
    by_cases hc : (env.connect_syscall fd a).1 = 0
    · simp [connectLoop, hc] at hev
      exact ⟨a, _, hev⟩
    · simp only [connectLoop, if_neg hc, List.mem_cons] at hev
      rcases hev with rfl | hev
      · exact ⟨a, _, rfl⟩
      · exact ih (env.connect_syscall fd a).2 ev hev

/-- The connect loop broke out of the list (found an accepting candidate)
exactly when its trace contains a `connect` attempt that returned `0`. -/
theorem connectLoop_some_iff (env : Env) (fd : Int) (l : List Addr) :
    ∀ e : Int, (connectLoop env fd l e).1 ≠ none ↔
      ∃ fd2 a, Event.connectAttempt fd2 a 0 ∈ (connectLoop env fd l e).2.2 := by
  induction l with
  | nil => intro e; simp [connectLoop]
  | cons a rest ih =>
    intro e
    by_cases hc : (env.connect_syscall fd a).1 = 0
    · simp [connectLoop, hc]
    · simp only [connectLoop, if_neg hc, List.mem_cons]
      constructor
      · intro h
        obtain ⟨fd2, b, hb⟩ := (ih (env.connect_syscall fd a).2).1 h
        exact ⟨fd2, b, Or.inr hb⟩
      · rintro ⟨fd2, b, hb | hb⟩
        · injection hb with h1 h2 h3
          exact absurd h3.symm hc
        · exact (ih (env.connect_syscall fd a).2).2 ⟨fd2, b, hb⟩

/-- The connect loop never issues a `socket` call. -/
theorem connectLoop_socketCalls (env : Env) (fd : Int) (l : List Addr) :
    ∀ e : Int, socketCalls (connectLoop env fd l e).2.2 = 0 := by
  induction l with
  | nil => intro e; simp [connectLoop, socketCalls]
  | cons a rest ih =>
    intro e
    by_cases hc : (env.connect_syscall fd a).1 = 0
    · simp [connectLoop, hc, socketCalls]
    · simp only [connectLoop, if_neg hc]
      exact ih (env.connect_syscall fd a).2

/-- Reduction of `tcpdial` on the path where the protocol lookup fails. -/
theorem tcpdial_proto_fail (env : Env) (host port : String)
    (hp : env.getprotobyname_tcp = none) :
    tcpdial env host port =
      { ret := ENOPROTOOPT, errno := ENOPROTOOPT, conn := none, trace := [] } := by
  simp [tcpdial, hp]

/-- Reduction of `tcpdial` on the path where `socket` fails. -/
theorem tcpdial_socket_fail (env : Env) (host port : String) (p : Int)
    (hp : env.getprotobyname_tcp = some p)
    (hs : (env.socket_syscall AF_INET SOCK_STREAM p).1 = -1) :
    tcpdial env host port =
      { ret := (env.socket_syscall AF_INET SOCK_STREAM p).2,
        errno := (env.socket_syscall AF_INET SOCK_STREAM p).2,
        conn := some (-1),
        trace := [Event.socketCall AF_INET SOCK_STREAM p (-1)] } := by
  simp [tcpdial, hp, hs]

/-- Reduction of `tcpdial` on the path where resolution fails. -/
theorem tcpdial_gai_fail (env : Env) (host port : String) (p fd : Int)
    (hp : env.getprotobyname_tcp = some p)
    (hfd : (env.socket_syscall AF_INET SOCK_STREAM p).1 = fd)
    (hs : fd ≠ -1)
    (hg : (env.getaddrinfo_syscall host port (tcpHints p)).1 ≠ 0) :
    tcpdial env host port =
      { ret := mapGaiError (env.getaddrinfo_syscall host port (tcpHints p)).1,
        errno := mapGaiError (env.getaddrinfo_syscall host port (tcpHints p)).1,
        conn := some fd,
        trace := [Event.socketCall AF_INET SOCK_STREAM p fd,
                  Event.gaiCall host port (tcpHints p)] } := by
  subst hfd
  simp [tcpdial, hp, hs, hg]

/-- Reduction of `tcpdial` on the path where resolution succeeds: the outcome
is determined by the connect loop over the resolved candidate list. -/
theorem tcpdial_connect_phase (env : Env) (host port : String) (p fd : Int)
    (addrs : List Addr)
    (hp : env.getprotobyname_tcp = some p)
    (hfd : (env.socket_syscall AF_INET SOCK_STREAM p).1 = fd)
    (hs : fd ≠ -1)
    (hg : env.getaddrinfo_syscall host port (tcpHints p) = (0, addrs)) :
    tcpdial env host port =
      { ret := if (connectLoop env fd addrs 0).1 = none then ENOTCONN else 0,
        errno := if (connectLoop env fd addrs 0).1 = none then ENOTCONN
                 else (connectLoop env fd addrs 0).2.1,
        conn := some fd,
        trace := [Event.socketCall AF_INET SOCK_STREAM p fd,
                  Event.gaiCall host port (tcpHints p)]
                 ++ (connectLoop env fd addrs 0).2.2 } := by
  subst hfd
  cases hres : (connectLoop env (env.socket_syscall AF_INET SOCK_STREAM p).1 addrs 0).1 with
  | none => simp [tcpdial, hp, hs, hg, hres]
  | some c => simp [tcpdial, hp, hs, hg, hres]

/-- The connect loop never issues a `close` call. -/
theorem connectLoop_closeCalls (env : Env) (fd : Int) (l : List Addr) :
    ∀ e : Int, closeCalls (connectLoop env fd l e).2.2 = 0 := by
  induction l with
  | nil => intro e; simp [connectLoop, closeCalls]
  | cons a rest ih =>
    intro e
    by_cases hc : (env.connect_syscall fd a).1 = 0
    · simp [connectLoop, hc, closeCalls]
    · simp only [connectLoop, if_neg hc]
      exact ih (env.connect_syscall fd a).2

/-- C1: when resolution succeeds with a candidate list in which at least one
candidate accepts, `tcpdial` attempts the candidates in resolution order,
skips each refusing candidate without aborting, connects the socket to the
first candidate that accepts (the head of the list after dropping the
refusing ones), and returns `0`. -/
theorem dial_connects_first_accepting
    (env : Env) (host port : String) (p fd : Int) (addrs : List Addr)
    (hp : env.getprotobyname_tcp = some p)
    (hfd : (env.socket_syscall AF_INET SOCK_STREAM p).1 = fd)
    (hs : fd ≠ -1)
    (hg : env.getaddrinfo_syscall host port (tcpHints p) = (0, addrs))
    (hacc : ∃ a ∈ addrs, (env.connect_syscall fd a).1 = 0) :
    (tcpdial env host port).ret = 0 ∧
    ∃ c, (addrs.dropWhile (refuses env fd)).head? = some c ∧
      (env.connect_syscall fd c).1 = 0 ∧
      (tcpdial env host port).trace =
        [Event.socketCall AF_INET SOCK_STREAM p fd,
         Event.gaiCall host port (tcpHints p)]
        ++ ((addrs.takeWhile (refuses env fd)).map
              (fun a => Event.connectAttempt fd a ((env.connect_syscall fd a).1))
            ++ [Event.connectAttempt fd c 0]) := by
  obtain ⟨c, hdrop, hc0, hres, htr⟩ := connectLoop_found env fd addrs 0 hacc
  have hT := tcpdial_connect_phase env host port p fd addrs hp hfd hs hg
  refine ⟨?_, c, hdrop, hc0, ?_⟩
  · rw [hT]; simp [hres]
  · rw [hT]; simp [htr]

/-- Witness for C1 on the concrete oracle `envA`: the IPv4 candidate refuses,
the IPv6 one accepts, and the dial succeeds on it. -/
theorem dial_connects_first_accepting_witness :
    (tcpdial envA "localhost" "9090").ret = 0 :=
  (dial_connects_first_accepting envA "localhost" "9090" 6 3
    [Addr.mk AF_INET 0, Addr.mk AF_INET6 1] rfl rfl (by decide) rfl
    ⟨Addr.mk AF_INET6 1, by decide, by decide⟩).1

/-- C2: when resolution succeeds but every candidate refuses (including the
degenerate case of an empty candidate list), `tcpdial` exhausts the list in
order and fails with `ENOTCONN`, both as return value and in `errno`. -/
theorem dial_exhausted_notconn
    (env : Env) (host port : String) (p fd : Int) (addrs : List Addr)
    (hp : env.getprotobyname_tcp = some p)
    (hfd : (env.socket_syscall AF_INET SOCK_STREAM p).1 = fd)
    (hs : fd ≠ -1)
    (hg : env.getaddrinfo_syscall host port (tcpHints p) = (0, addrs))
    (hfail : ∀ a ∈ addrs, (env.connect_syscall fd a).1 ≠ 0) :
    (tcpdial env host port).ret = ENOTCONN ∧
    (tcpdial env host port).errno = ENOTCONN ∧
    (tcpdial env host port).trace =
      [Event.socketCall AF_INET SOCK_STREAM p fd,
       Event.gaiCall host port (tcpHints p)]
      ++ addrs.map (fun a => Event.connectAttempt fd a ((env.connect_syscall fd a).1)) := by
  obtain ⟨hnone, htr⟩ := connectLoop_exhaust env fd addrs 0 hfail
  have hT := tcpdial_connect_phase env host port p fd addrs hp hfd hs hg
  refine ⟨?_, ?_, ?_⟩
  · rw [hT]; simp [hnone]
  · rw [hT]; simp [hnone]
  · rw [hT]; simp [htr]

/-- Witness for C2 on the concrete oracle `envExhaust`: both candidates
refuse and the dial fails with `ENOTCONN`. -/
theorem dial_exhausted_notconn_witness :
    (tcpdial envExhaust "localhost" "9090").ret = ENOTCONN ∧
    (tcpdial envExhaust "localhost" "9090").errno = ENOTCONN ∧
    (tcpdial envExhaust "localhost" "9090").trace =
      [Event.socketCall AF_INET SOCK_STREAM 6 3,
       Event.gaiCall "localhost" "9090" (tcpHints 6)]
      ++ [Addr.mk AF_INET 0, Addr.mk AF_INET6 1].map
           (fun a => Event.connectAttempt 3 a ((envExhaust.connect_syscall 3 a).1)) :=
  dial_exhausted_notconn envExhaust "localhost" "9090" 6 3
    [Addr.mk AF_INET 0, Addr.mk AF_INET6 1] rfl rfl (by decide) rfl
    (by decide)

/-- C6: when the protocol database has no TCP entry, `tcpdial` fails with
`ENOPROTOOPT` (return value and `errno`) and its trace is empty: no socket
was created and no resolution was attempted. -/
theorem dial_missing_protocol_entry (env : Env) (host port : String)
    (hp : env.getprotobyname_tcp = none) :
    (tcpdial env host port).ret = ENOPROTOOPT ∧
    (tcpdial env host port).errno = ENOPROTOOPT ∧
    (tcpdial env host port).trace = [] := by
  rw [tcpdial_proto_fail env host port hp]
  exact ⟨rfl, rfl, rfl⟩

/-- Witness for C6 on the concrete oracle `envNoProto`. -/
theorem dial_missing_protocol_entry_witness :
    (tcpdial envNoProto "localhost" "9090").ret = ENOPROTOOPT ∧
    (tcpdial envNoProto "localhost" "9090").errno = ENOPROTOOPT ∧
    (tcpdial envNoProto "localhost" "9090").trace = [] :=
  dial_missing_protocol_entry envNoProto "localhost" "9090" rfl

/-- Whenever the protocol lookup succeeds, `tcpdial` writes the `socket`
return value through `conn`, on every path (socket failure, resolution
failure, connect exhaustion, success). -/
theorem tcpdial_conn (env : Env) (host port : String) (p : Int)
    (hp : env.getprotobyname_tcp = some p) :
    (tcpdial env host port).conn =
      some (env.socket_syscall AF_INET SOCK_STREAM p).1 := by
  by_cases hsock : (env.socket_syscall AF_INET SOCK_STREAM p).1 = -1
  · rw [tcpdial_socket_fail env host port p hp hsock, hsock]
  · by_cases hg0 : (env.getaddrinfo_syscall host port (tcpHints p)).1 = 0
    · have hg : env.getaddrinfo_syscall host port (tcpHints p) =
          (0, (env.getaddrinfo_syscall host port (tcpHints p)).2) := by
        rw [← hg0]
      rw [tcpdial_connect_phase env host port p
            (env.socket_syscall AF_INET SOCK_STREAM p).1
            (env.getaddrinfo_syscall host port (tcpHints p)).2 hp rfl hsock hg]
    · rw [tcpdial_gai_fail env host port p
            (env.socket_syscall AF_INET SOCK_STREAM p).1 hp rfl hsock hg0]

/-- C3: when resolution fails with nonzero code `g`, `tcpdial` returns the
same value it stores in `errno`, namely the once-translated code:
`EAI_AGAIN ↦ ENETUNREACH`, `EAI_FAIL ↦ ENETDOWN`, `EAI_MEMORY ↦ ENOMEM`,
`EAI_NONAME`/`EAI_SERVICE ↦ EINVAL`, and any other resolver code verbatim. -/
theorem dial_resolver_error_mapping
    (env : Env) (host port : String) (p fd g : Int)
    (hp : env.getprotobyname_tcp = some p)
    (hfd : (env.socket_syscall AF_INET SOCK_STREAM p).1 = fd)
    (hs : fd ≠ -1)
    (hg : (env.getaddrinfo_syscall host port (tcpHints p)).1 = g)
    (hgz : g ≠ 0) :
    (tcpdial env host port).ret = (tcpdial env host port).errno ∧
    (g = EAI_AGAIN → (tcpdial env host port).ret = ENETUNREACH) ∧
    (g = EAI_FAIL → (tcpdial env host port).ret = ENETDOWN) ∧
    (g = EAI_MEMORY → (tcpdial env host port).ret = ENOMEM) ∧
    ((g = EAI_NONAME ∨ g = EAI_SERVICE) → (tcpdial env host port).ret = EINVAL) ∧
    (g ≠ EAI_AGAIN → g ≠ EAI_FAIL → g ≠ EAI_MEMORY → g ≠ EAI_NONAME →
      g ≠ EAI_SERVICE → (tcpdial env host port).ret = g) := by
  have hT := tcpdial_gai_fail env host port p fd hp hfd hs (hg ▸ hgz)
  rw [hT, hg]
  refine ⟨rfl, ?_, ?_, ?_, ?_, ?_⟩
  · intro h; subst h
    show mapGaiError EAI_AGAIN = ENETUNREACH
    decide
  · intro h; subst h
    show mapGaiError EAI_FAIL = ENETDOWN
    decide
  · intro h; subst h
    show mapGaiError EAI_MEMORY = ENOMEM
    decide
  · rintro (h | h) <;> subst h
    · show mapGaiError EAI_NONAME = EINVAL
      decide
    · show mapGaiError EAI_SERVICE = EINVAL
      decide
  · intro h1 h2 h3 h4 h5
    show mapGaiError g = g
    simp [mapGaiError, h1, h2, h3, h4, h5]

/-- Witness for C3 on the concrete oracle `envGaiFail`, whose resolver fails
with `EAI_AGAIN`: the call returns `ENETUNREACH` and stores it in `errno`. -/
theorem dial_resolver_error_mapping_witness :
    (tcpdial envGaiFail "example.com" "80").ret
      = (tcpdial envGaiFail "example.com" "80").errno ∧
    (tcpdial envGaiFail "example.com" "80").ret = ENETUNREACH :=
  ⟨(dial_resolver_error_mapping envGaiFail "example.com" "80" 6 3 EAI_AGAIN
      rfl rfl (by decide) rfl (by decide)).1,
   (dial_resolver_error_mapping envGaiFail "example.com" "80" 6 3 EAI_AGAIN
      rfl rfl (by decide) rfl (by decide)).2.1 rfl⟩

/-- C8: whenever `tcpdial` reaches the resolution step, the request it hands
to the resolver carries exactly the hints `ai_family = AF_UNSPEC`,
`ai_socktype = SOCK_STREAM` and `ai_protocol` equal to the protocol number
obtained in step 1, for the given host and port. -/
theorem dial_resolution_hints
    (env : Env) (host port : String) (p fd : Int)
    (hp : env.getprotobyname_tcp = some p)
    (hfd : (env.socket_syscall AF_INET SOCK_STREAM p).1 = fd)
    (hs : fd ≠ -1) :
    Event.gaiCall host port
        { ai_family := AF_UNSPEC, ai_socktype := SOCK_STREAM, ai_protocol := p }
      ∈ (tcpdial env host port).trace := by
  by_cases hg0 : (env.getaddrinfo_syscall host port (tcpHints p)).1 = 0
  · have hg : env.getaddrinfo_syscall host port (tcpHints p) =
        (0, (env.getaddrinfo_syscall host port (tcpHints p)).2) := by
      rw [← hg0]
    rw [tcpdial_connect_phase env host port p fd
          (env.getaddrinfo_syscall host port (tcpHints p)).2 hp hfd hs hg]
    simp [tcpHints]
  · rw [tcpdial_gai_fail env host port p fd hp hfd hs hg0]
    simp [tcpHints]

/-- Witness for C8 on the concrete oracle `envA`. -/
theorem dial_resolution_hints_witness :
    Event.gaiCall "localhost" "9090"
        { ai_family := AF_UNSPEC, ai_socktype := SOCK_STREAM, ai_protocol := 6 }
      ∈ (tcpdial envA "localhost" "9090").trace :=
  dial_resolution_hints envA "localhost" "9090" 6 3 rfl rfl (by decide)

/-- C9: the socket is created with domain `AF_INET` even though the hints
passed to the resolver leave the family `AF_UNSPEC`, and every `connect`
attempt — whatever the family of the candidate address — is made on that
same descriptor. -/
theorem dial_af_inet_socket_all_families
    (env : Env) (host port : String) (p fd : Int)
    (hp : env.getprotobyname_tcp = some p)
    (hfd : (env.socket_syscall AF_INET SOCK_STREAM p).1 = fd)
    (hs : fd ≠ -1) :
    Event.socketCall AF_INET SOCK_STREAM p fd ∈ (tcpdial env host port).trace ∧
    Event.gaiCall host port
        { ai_family := AF_UNSPEC, ai_socktype := SOCK_STREAM, ai_protocol := p }
      ∈ (tcpdial env host port).trace ∧
    ∀ fd2 a r, Event.connectAttempt fd2 a r ∈ (tcpdial env host port).trace →
      fd2 = fd := by
  by_cases hg0 : (env.getaddrinfo_syscall host port (tcpHints p)).1 = 0
  · have hg : env.getaddrinfo_syscall host port (tcpHints p) =
        (0, (env.getaddrinfo_syscall host port (tcpHints p)).2) := by
      rw [← hg0]
    rw [tcpdial_connect_phase env host port p fd
          (env.getaddrinfo_syscall host port (tcpHints p)).2 hp hfd hs hg]
    refine ⟨by simp, by simp [tcpHints], ?_⟩
    intro fd2 a r hmem
    rcases List.mem_append.1 hmem with h1 | h2
    · simp at h1
    · obtain ⟨a2, r2, heq⟩ := connectLoop_events env fd
        (env.getaddrinfo_syscall host port (tcpHints p)).2 0
        (Event.connectAttempt fd2 a r) h2
      simp only [Event.connectAttempt.injEq] at heq
      exact heq.1
  · rw [tcpdial_gai_fail env host port p fd hp hfd hs hg0]
    refine ⟨by simp, by simp [tcpHints], ?_⟩
    intro fd2 a r hmem
    simp at hmem

/-- Witness for C9 on the concrete oracle `envA`, whose candidate list holds
an IPv6 address that is attempted (successfully) on the `AF_INET` socket. -/
theorem dial_af_inet_socket_all_families_witness :
    Event.socketCall AF_INET SOCK_STREAM 6 3 ∈ (tcpdial envA "localhost" "9090").trace ∧
    Event.gaiCall "localhost" "9090"
        { ai_family := AF_UNSPEC, ai_socktype := SOCK_STREAM, ai_protocol := 6 }
      ∈ (tcpdial envA "localhost" "9090").trace :=
  ⟨(dial_af_inet_socket_all_families envA "localhost" "9090" 6 3 rfl rfl (by decide)).1,
   (dial_af_inet_socket_all_families envA "localhost" "9090" 6 3 rfl rfl (by decide)).2.1⟩

/-- C10: `tcpdial` leaves `*conn` untouched exactly on the missing-protocol
path, and on every other path — socket failure included, and in particular on
every failure path after socket creation succeeds — `*conn` holds the value
the `socket` call returned, independent of what resolution and the connect
attempts later do. -/
theorem dial_conn_write_paths (env : Env) (host port : String) :
    ((tcpdial env host port).conn = none ↔ env.getprotobyname_tcp = none) ∧
    (∀ p, env.getprotobyname_tcp = some p →
      (tcpdial env host port).conn =
        some (env.socket_syscall AF_INET SOCK_STREAM p).1) := by
  refine ⟨⟨?_, ?_⟩, ?_⟩
  · intro hconn
    by_contra hne
    obtain ⟨p, hp⟩ := Option.ne_none_iff_exists'.1 hne
    rw [tcpdial_conn env host port p hp] at hconn
    exact Option.noConfusion hconn
  · intro hp
    rw [tcpdial_proto_fail env host port hp]
  · intro p hp
    exact tcpdial_conn env host port p hp

/-- Witness for C10 on the concrete oracle `envA` (descriptor 3 written) and
on `envNoProto` (`*conn` untouched). -/
theorem dial_conn_write_paths_witness :
    ((tcpdial envA "localhost" "9090").conn = none ↔
      envA.getprotobyname_tcp = none) ∧
    (tcpdial envA "localhost" "9090").conn = some 3 ∧
    (tcpdial envNoProto "localhost" "9090").conn = none :=
  ⟨(dial_conn_write_paths envA "localhost" "9090").1,
   (dial_conn_write_paths envA "localhost" "9090").2 6 rfl,
   ((dial_conn_write_paths envNoProto "localhost" "9090").1).2 rfl⟩

/-- The function `tcpdial` never issues a `close` call, on any path. -/
theorem tcpdial_closeCalls (env : Env) (host port : String) :
    closeCalls (tcpdial env host port).trace = 0 := by
  rcases henv : env.getprotobyname_tcp with _ | p
  · rw [tcpdial_proto_fail env host port henv]
    rfl
  · by_cases hsock : (env.socket_syscall AF_INET SOCK_STREAM p).1 = -1
    · rw [tcpdial_socket_fail env host port p henv hsock]
      rfl
    · by_cases hg0 : (env.getaddrinfo_syscall host port (tcpHints p)).1 = 0
      · have hg : env.getaddrinfo_syscall host port (tcpHints p) =
            (0, (env.getaddrinfo_syscall host port (tcpHints p)).2) := by
          rw [← hg0]
        rw [tcpdial_connect_phase env host port p
              (env.socket_syscall AF_INET SOCK_STREAM p).1
              (env.getaddrinfo_syscall host port (tcpHints p)).2 henv rfl hsock hg]
        show closeCalls (connectLoop env (env.socket_syscall AF_INET SOCK_STREAM p).1
          (env.getaddrinfo_syscall host port (tcpHints p)).2 0).2.2 = 0
        exact connectLoop_closeCalls env _ _ 0
      · rw [tcpdial_gai_fail env host port p
              (env.socket_syscall AF_INET SOCK_STREAM p).1 henv rfl hsock hg0]
        rfl

/-- Whenever the protocol lookup succeeds, `tcpdial` issues exactly one
`socket` call, on every path. -/
theorem tcpdial_socketCalls (env : Env) (host port : String) (p : Int)
    (hp : env.getprotobyname_tcp = some p) :
    socketCalls (tcpdial env host port).trace = 1 := by
  by_cases hsock : (env.socket_syscall AF_INET SOCK_STREAM p).1 = -1
  · rw [tcpdial_socket_fail env host port p hp hsock]
    rfl
  · by_cases hg0 : (env.getaddrinfo_syscall host port (tcpHints p)).1 = 0
    · have hg : env.getaddrinfo_syscall host port (tcpHints p) =
          (0, (env.getaddrinfo_syscall host port (tcpHints p)).2) := by
        rw [← hg0]
      rw [tcpdial_connect_phase env host port p
            (env.socket_syscall AF_INET SOCK_STREAM p).1
            (env.getaddrinfo_syscall host port (tcpHints p)).2 hp rfl hsock hg]
      show socketCalls (connectLoop env (env.socket_syscall AF_INET SOCK_STREAM p).1
        (env.getaddrinfo_syscall host port (tcpHints p)).2 0).2.2 + 1 = 1
      rw [connectLoop_socketCalls env _ _ 0]
    · rw [tcpdial_gai_fail env host port p
            (env.socket_syscall AF_INET SOCK_STREAM p).1 hp rfl hsock hg0]
      rfl

/-- Every `connect` attempt `tcpdial` makes is on the descriptor the single
`socket` call returned. -/
theorem tcpdial_attempt_fd (env : Env) (host port : String) (p : Int)
    (hp : env.getprotobyname_tcp = some p) :
    ∀ fd2 a r, Event.connectAttempt fd2 a r ∈ (tcpdial env host port).trace →
      fd2 = (env.socket_syscall AF_INET SOCK_STREAM p).1 := by
  by_cases hsock : (env.socket_syscall AF_INET SOCK_STREAM p).1 = -1
  · rw [tcpdial_socket_fail env host port p hp hsock]
    intro fd2 a r hmem
    simp at hmem
  · by_cases hg0 : (env.getaddrinfo_syscall host port (tcpHints p)).1 = 0
    · have hg : env.getaddrinfo_syscall host port (tcpHints p) =
          (0, (env.getaddrinfo_syscall host port (tcpHints p)).2) := by
        rw [← hg0]
      rw [tcpdial_connect_phase env host port p
            (env.socket_syscall AF_INET SOCK_STREAM p).1
            (env.getaddrinfo_syscall host port (tcpHints p)).2 hp rfl hsock hg]
      intro fd2 a r hmem
      rcases List.mem_append.1 hmem with h1 | h2
      · simp at h1
      · obtain ⟨a2, r2, heq⟩ := connectLoop_events env
          (env.socket_syscall AF_INET SOCK_STREAM p).1
          (env.getaddrinfo_syscall host port (tcpHints p)).2 0
          (Event.connectAttempt fd2 a r) h2
        simp only [Event.connectAttempt.injEq] at heq
        exact heq.1
    · rw [tcpdial_gai_fail env host port p
            (env.socket_syscall AF_INET SOCK_STREAM p).1 hp rfl hsock hg0]
      intro fd2 a r hmem
      simp at hmem

/-- C4 counterexample: a failing call in which a socket was created and yet
no `close` was issued before the error return.  On `envGaiFail` the socket is
created (one `socket` call in the trace), resolution then fails, the call
returns the nonzero code `ENETUNREACH`, and the trace holds no `close`. -/
theorem dial_close_on_failure_counterexample :
    (tcpdial envGaiFail "example.com" "80").ret ≠ 0 ∧
    socketCalls (tcpdial envGaiFail "example.com" "80").trace = 1 ∧
    closeCalls (tcpdial envGaiFail "example.com" "80").trace = 0 := by
  decide

/-- C4 amended: on a failure after socket creation the socket is NOT closed —
`tcpdial` never issues a `close` on any path — and the descriptor is instead
left in `*conn` for the caller. -/
theorem dial_never_closes_socket (env : Env) (host port : String) :
    closeCalls (tcpdial env host port).trace = 0 ∧
    (∀ p, env.getprotobyname_tcp = some p →
      (env.socket_syscall AF_INET SOCK_STREAM p).1 ≠ -1 →
      (tcpdial env host port).ret ≠ 0 →
      (tcpdial env host port).conn =
        some (env.socket_syscall AF_INET SOCK_STREAM p).1) := by
  refine ⟨tcpdial_closeCalls env host port, ?_⟩
  intro p hp _ _
  exact tcpdial_conn env host port p hp

/-- Witness for the amended C4 on the concrete oracle `envGaiFail`: the call
fails after creating descriptor `3`, closes nothing, and leaves `3` in
`*conn`. -/
theorem dial_never_closes_socket_witness :
    closeCalls (tcpdial envGaiFail "example.com" "80").trace = 0 ∧
    (tcpdial envGaiFail "example.com" "80").conn = some 3 :=
  ⟨(dial_never_closes_socket envGaiFail "example.com" "80").1,
   (dial_never_closes_socket envGaiFail "example.com" "80").2 6 rfl
     (by decide) (by decide)⟩

/-- C5: under a well-formed oracle (a failing `socket` call leaves a nonzero
`errno`), `tcpdial` returns `0` exactly when the connect loop found an
accepting candidate (a `connect` attempt that returned `0` is in the trace);
every failure path returns a nonzero code. -/
theorem dial_ret_zero_iff_connected (env : Env) (host port : String)
    (hwf : env.Wf) :
    (tcpdial env host port).ret = 0 ↔
      ∃ fd a, Event.connectAttempt fd a 0 ∈ (tcpdial env host port).trace := by
  rcases henv : env.getprotobyname_tcp with _ | p
  · rw [tcpdial_proto_fail env host port henv]
    simp [ENOPROTOOPT]
  · by_cases hsock : (env.socket_syscall AF_INET SOCK_STREAM p).1 = -1
    · rw [tcpdial_socket_fail env host port p henv hsock]
      have hnz := hwf AF_INET SOCK_STREAM p hsock
      simp [hnz]
    · by_cases hg0 : (env.getaddrinfo_syscall host port (tcpHints p)).1 = 0
      · have hg : env.getaddrinfo_syscall host port (tcpHints p) =
            (0, (env.getaddrinfo_syscall host port (tcpHints p)).2) := by
          rw [← hg0]
        rw [tcpdial_connect_phase env host port p
              (env.socket_syscall AF_INET SOCK_STREAM p).1
              (env.getaddrinfo_syscall host port (tcpHints p)).2 henv rfl hsock hg]
        have hiff := connectLoop_some_iff env
          (env.socket_syscall AF_INET SOCK_STREAM p).1
          (env.getaddrinfo_syscall host port (tcpHints p)).2 0
        by_cases hres : (connectLoop env
            (env.socket_syscall AF_INET SOCK_STREAM p).1
            (env.getaddrinfo_syscall host port (tcpHints p)).2 0).1 = none
        · have hno : ¬ ∃ fd2 a, Event.connectAttempt fd2 a 0 ∈
              (connectLoop env (env.socket_syscall AF_INET SOCK_STREAM p).1
                (env.getaddrinfo_syscall host port (tcpHints p)).2 0).2.2 := by
            intro hex
            exact (hiff.2 hex) hres
          simp [hres, ENOTCONN]
          intro fd2 a hmem
          exact hno ⟨fd2, a, hmem⟩
        · obtain ⟨fd2, a, hmem⟩ := hiff.1 hres
          simp [hres]
          exact ⟨fd2, a, hmem⟩
      · rw [tcpdial_gai_fail env host port p
              (env.socket_syscall AF_INET SOCK_STREAM p).1 henv rfl hsock hg0]
        have hnz : mapGaiError (env.getaddrinfo_syscall host port (tcpHints p)).1 ≠ 0 := by
          unfold mapGaiError
          split_ifs <;> first | decide | exact hg0
        simp [hnz]

/-- Witness for C5 on the concrete oracle `envA`: a candidate accepts, so the
call returns `0`. -/
theorem dial_ret_zero_iff_connected_witness :
    (tcpdial envA "localhost" "9090").ret = 0 :=
  (dial_ret_zero_iff_connected envA "localhost" "9090"
      (by intro d t p h; simp [envA] at h)).2
    ⟨3, Addr.mk AF_INET6 1, by decide⟩

/-- C7 counterexample: a call of `tcpdial` on which no socket at all is
created — when the protocol lookup fails, the function returns before ever
calling `socket`, so it does not create exactly one socket on every call. -/
theorem dial_socket_count_counterexample :
    socketCalls (tcpdial envNoProto "localhost" "9090").trace = 0 ∧
    ¬ socketCalls (tcpdial envNoProto "localhost" "9090").trace = 1 := by
  decide

/-- C7 amended: `tcpdial` creates at most one OS-level socket per call —
exactly one as soon as the protocol lookup succeeds — and a failed connect
attempt neither closes nor recreates it: every `connect` attempt in the call
uses the descriptor returned by the single `socket` call, and no `close` is
ever issued. -/
theorem dial_single_socket_reused (env : Env) (host port : String) :
    socketCalls (tcpdial env host port).trace ≤ 1 ∧
    (∀ p, env.getprotobyname_tcp = some p →
      socketCalls (tcpdial env host port).trace = 1) ∧
    (∀ p, env.getprotobyname_tcp = some p →
      ∀ fd2 a r, Event.connectAttempt fd2 a r ∈ (tcpdial env host port).trace →
        fd2 = (env.socket_syscall AF_INET SOCK_STREAM p).1) ∧
    closeCalls (tcpdial env host port).trace = 0 := by
  refine ⟨?_, ?_, ?_, tcpdial_closeCalls env host port⟩
  · rcases henv : env.getprotobyname_tcp with _ | p
    · rw [tcpdial_proto_fail env host port henv]
      decide
    · rw [tcpdial_socketCalls env host port p henv]
  · intro p hp
    exact tcpdial_socketCalls env host port p hp
  · intro p hp
    exact tcpdial_attempt_fd env host port p hp

/-- Witness for the amended C7 on the concrete oracle `envA`: one socket,
nothing closed. -/
theorem dial_single_socket_reused_witness :
    socketCalls (tcpdial envA "localhost" "9090").trace = 1 ∧
    closeCalls (tcpdial envA "localhost" "9090").trace = 0 :=
  ⟨(dial_single_socket_reused envA "localhost" "9090").2.1 6 rfl,
   (dial_single_socket_reused envA "localhost" "9090").2.2.2⟩

end Tcp
